import Mathlib

/-!
Verification of the TEN VAD engine contract against the `ten_vad_python.cc`
binding layer (the only code available) and, where the engine implementation
behind `ten_vad.h` is not available, against a model built from the
specification's own words (each such definition is marked
`Modelled from the spec:`).
-/

namespace TenVad

/-- Decision states of the DecisionPolicy state machine (spec section 4.4). -/
inductive Mode
  | SILENCE
  | SPEECH
deriving DecidableEq, Repr

/-- Boolean view of the decision state: the `flag` output is true iff the
state is SPEECH after applying the transition rule for the current frame. -/
def Mode.isSpeech : Mode → Bool
  | .SPEECH => true
  | .SILENCE => false

/-- Mutable per-handle engine state: the smoothing accumulator, the hangover
counter and the current decision state (spec section 3, EngineState). -/
structure EngineState where
  smooth : ℚ
  hangCount : ℕ
  mode : Mode
deriving DecidableEq, Repr

/-- EngineState as initialized at creation: smoothing accumulator = 0,
hangover counter = 0, decision state = SILENCE (spec section 4.1). -/
def initState : EngineState := ⟨0, 0, .SILENCE⟩

/-- Clamp a rational into the interval [0,1]. -/
def clamp01 (x : ℚ) : ℚ := max 0 (min 1 x)

/-- Modelled from the spec: the fixed smoothing coefficient of the
TemporalStateTracker (section 4.3, "exponential moving average with a fixed,
configured smoothing coefficient"). The engine implementation behind
`ten_vad_process` is not available, so a concrete constant is chosen. -/
def smoothingCoeff : ℚ := 1/2

/-- Modelled from the spec: the fixed hangover length used by the
DecisionPolicy (sections 4.3 and 4.4); a concrete constant, as the engine
implementation is not available. -/
def hangover : ℕ := 8

/-- Modelled from the spec: the FeatureExtractor (section 4.2): a
deterministic, pure function of the frame producing a raw speech score from
short-time energy, explicitly clamped into [0,1]; an all-zero frame maps to
the minimum 0 of the output range, full-scale energy stays bounded. The
engine implementation is not available. -/
def rawScore (frame : List ℤ) : ℚ :=
  clamp01 ((((frame.map fun s => s * s).sum : ℤ) : ℚ) /
    ((32768 : ℚ) ^ 2 * (frame.length : ℚ)))

/-- Modelled from the spec: the TemporalStateTracker update (section 4.3), an
exponential moving average of the raw scores. -/
def smoothedScore (prev raw : ℚ) : ℚ :=
  smoothingCoeff * raw + (1 - smoothingCoeff) * prev

/-- Modelled from the spec: the DecisionPolicy transition rule (section 4.4).
SILENCE to SPEECH when the smoothed score reaches `threshold`; SPEECH back to
SILENCE only after more than `hangover` consecutive frames whose smoothed
score is strictly below `threshold` (the hangover counter counts the
consecutive below-threshold frames seen while in SPEECH). -/
def decisionStep (threshold s : ℚ) (mode : Mode) (hang : ℕ) : Mode × ℕ :=
  match mode with
  | .SILENCE => if threshold ≤ s then (.SPEECH, 0) else (.SILENCE, 0)
  | .SPEECH =>
      if threshold ≤ s then (.SPEECH, 0)
      else if hangover < hang + 1 then (.SILENCE, 0)
      else (.SPEECH, hang + 1)

/-- Modelled from the spec: one successful engine inference step (section 2
data flow): frame, raw score, smoothed score, decision; the returned
probability is explicitly clamped into [0,1] at the component boundary. -/
def engineStep (threshold : ℚ) (st : EngineState) (frame : List ℤ) :
    (ℚ × Bool) × EngineState :=
  let raw := rawScore frame
  let sm := smoothedScore st.smooth raw
  let mc := decisionStep threshold sm st.mode st.hangCount
  ((clamp01 sm, mc.1.isSpeech), ⟨sm, mc.2, mc.1⟩)

/-- Modelled from the spec: `ten_vad_create` (section 4.1), whose
implementation is not available: succeeds (returning the freshly initialized
EngineState) for every frameLength > 0 and threshold in [0,1], fails for
frameLength = 0 or threshold outside [0,1]. -/
def ten_vad_create (hop_size : ℕ) (threshold : ℚ) : Option EngineState :=
  if hop_size = 0 ∨ threshold < 0 ∨ 1 < threshold then none else some initState

/-- Modelled from the spec: `ten_vad_process`, whose implementation is not
available. InternalError is raised only when feature computation produces a
non-finite value (section 4.1); in exact rational arithmetic with explicit
clamping that cannot happen, so every call succeeds. A failing call would
return no state, matching "a failed `process` call must not mutate
EngineState" (section 7). -/
def ten_vad_process (threshold : ℚ) (st : EngineState) (frame : List ℤ) :
    Except Unit ((ℚ × Bool) × EngineState) :=
  .ok (engineStep threshold st frame)

/-- Modelled from the spec: `ten_vad_get_version`, whose implementation is
not available: a static, process-wide, non-empty identifier string
(section 4.1). -/
def ten_vad_get_version : String := "ten-vad"

/-- A NumPy int16 array as seen by `VAD::process` through
`py::buffer_info`: a shape, the flat element buffer, and the fact that
`buf.size` (the total element count, i.e. the product of the shape) equals
the length of the flat buffer. -/
structure NpArrayInt16 where
  shape : List ℕ
  data : List ℤ
  size_ok : data.length = shape.prod

/-- The total element count `buf.size` of the array. -/
def NpArrayInt16.size (a : NpArrayInt16) : ℕ := a.shape.prod

/-- The exceptions thrown by the binding layer: `std::runtime_error("Failed
to create VAD")` from the constructor, `std::invalid_argument(...)` from the
frame-size check, and `std::runtime_error("VAD processing failed")` when the
engine call reports failure. -/
inductive VadError
  | createFailed
  | frameSize (msg : String)
  | processFailed
deriving DecidableEq, Repr

/-- The message of the `std::invalid_argument` thrown by `VAD::process` on a
frame-size mismatch, exactly as built in the source. -/
def frameSizeMsg (sz hop : ℕ) : String :=
  "Audio data size (" ++ toString sz ++ ") must match hop_size (" ++
    toString hop ++ ")"

/-- The bound `VAD` object of `ten_vad_python.cc`: the opaque engine handle
(here its contents: the threshold passed to `ten_vad_create` and the mutable
EngineState) together with the stored `hop_size`. `addr` models the object's
identity (allocation address); no operation ever reads it. -/
structure VAD where
  addr : ℕ
  hop_size : ℕ
  threshold : ℚ
  st : EngineState
deriving DecidableEq, Repr

/-- The `VAD` constructor: calls `ten_vad_create` and throws
(`Failed to create VAD`) exactly when it reports failure. -/
def VAD.create (addr hop_size : ℕ) (threshold : ℚ) : Except VadError VAD :=
  match ten_vad_create hop_size threshold with
  | none => .error .createFailed
  | some st => .ok ⟨addr, hop_size, threshold, st⟩

/-- `VAD::process`: validates that `buf.size` equals `hop_size` (throwing
`std::invalid_argument` with the sizes in the message on mismatch), then
calls `ten_vad_process` on the flat buffer. The result pairs the call's
outcome with the object afterwards: a thrown exception leaves the object
exactly as it was. -/
def VAD.process (v : VAD) (audio : NpArrayInt16) :
    Except VadError (ℚ × Bool) × VAD :=
  if audio.size ≠ v.hop_size then
    (.error (.frameSize (frameSizeMsg audio.size v.hop_size)), v)
  else
    match ten_vad_process v.threshold v.st audio.data with
    | .error _ => (.error .processFailed, v)
    | .ok (out, st') => (.ok out, { v with st := st' })

/-- `VAD::version`: returns `ten_vad_get_version()`; reads nothing from the
object. -/
def VAD.version (_ : VAD) : String := ten_vad_get_version

/-- The sequence of results of feeding `frames` in order through one `VAD`
object, threading the object state (a failing call leaves it unchanged). -/
def VAD.run (v : VAD) (frames : List NpArrayInt16) :
    List (Except VadError (ℚ × Bool)) :=
  match frames with
  | [] => []
  | a :: rest => (v.process a).1 :: VAD.run (v.process a).2 rest

/-- The `VAD` object after `n` process calls on the frame stream `f`. -/
def VAD.runStream (v : VAD) (f : ℕ → NpArrayInt16) : ℕ → VAD
  | 0 => v
  | n + 1 => ((v.runStream f n).process (f n)).2

/-- The outcome of the `n`-th process call on the frame stream `f`. -/
def VAD.outAt (v : VAD) (f : ℕ → NpArrayInt16) (n : ℕ) :
    Except VadError (ℚ × Bool) :=
  ((v.runStream f n).process (f n)).1

/-- An all-zero (silent) frame of `hop` samples, presented as a 1-D array. -/
def zeroFrameArr (hop : ℕ) : NpArrayInt16 :=
  ⟨[hop], List.replicate hop 0, by simp⟩

/-- Engine state after `n` engine steps on the frame stream `f`, starting
from state `st`. -/
def engineStates (threshold : ℚ) (st : EngineState) (f : ℕ → List ℤ) :
    ℕ → EngineState
  | 0 => st
  | n + 1 => (engineStep threshold (engineStates threshold st f n) (f n)).2

/-- The `flag` returned by the `n`-th engine step on the stream `f`. -/
def flagAt (threshold : ℚ) (st : EngineState) (f : ℕ → List ℤ) (n : ℕ) :
    Bool :=
  ((engineStep threshold (engineStates threshold st f n) (f n)).1).2

/-- The smoothed score computed at the `n`-th engine step on the stream `f`
(recorded in the smoothing accumulator of the following state). -/
def scoreAt (threshold : ℚ) (st : EngineState) (f : ℕ → List ℤ) (n : ℕ) :
    ℚ :=
  (engineStates threshold st f (n + 1)).smooth

/-- The calls made into the engine over the full C++ lifetime of one `VAD`
object constructed with the given arguments: the constructor calls
`ten_vad_create`; if that fails the constructor throws, so the destructor
(and hence `ten_vad_destroy`) never runs for that object; otherwise the
destructor runs exactly once, at destruction, and calls `ten_vad_destroy`. -/
inductive EngineCall
  | create
  | destroy
deriving DecidableEq, Repr

/-- The engine-call trace of one complete construct-use-destroy lifetime. -/
def vadLifetimeTrace (hop_size : ℕ) (threshold : ℚ) : List EngineCall :=
  match ten_vad_create hop_size threshold with
  | none => [.create]
  | some _ => [.create, .destroy]

/-- A concrete 2 x 2 NumPy array: multi-dimensional, four total elements. -/
def arr2x2 : NpArrayInt16 := ⟨[2, 2], [0, 0, 0, 0], rfl⟩

/-- A concrete 2 x 3 NumPy array: multi-dimensional, six total elements. -/
def arr2x3 : NpArrayInt16 := ⟨[2, 3], [0, 0, 0, 0, 0, 0], rfl⟩

lemma clamp01_nonneg (x : ℚ) : 0 ≤ clamp01 x := le_max_left 0 _

lemma clamp01_le_one (x : ℚ) : clamp01 x ≤ 1 :=
  max_le zero_le_one (min_le_left 1 x)

lemma zeroFrameArr_size (hop : ℕ) : (zeroFrameArr hop).size = hop := by
  simp [zeroFrameArr, NpArrayInt16.size]

/-- On a size mismatch `VAD::process` throws before touching the engine. -/
lemma process_mismatch (v : VAD) (a : NpArrayInt16) (h : a.size ≠ v.hop_size) :
    v.process a = (.error (.frameSize (frameSizeMsg a.size v.hop_size)), v) := by
  simp [VAD.process, h]

/-- On a size match `VAD::process` runs the engine on the flat buffer and
stores the updated engine state. -/
lemma process_match (v : VAD) (a : NpArrayInt16) (h : a.size = v.hop_size) :
    v.process a = (.ok (engineStep v.threshold v.st a.data).1,
      { v with st := (engineStep v.threshold v.st a.data).2 }) := by
  simp [VAD.process, h, ten_vad_process]

/-- C1: `process` fails with the frame-size error for every frame whose
total length differs from the configured `hop_size`, regardless of content,
and never raises that error for a frame of exactly `hop_size` samples. -/
theorem process_frame_size_check (v : VAD) (a : NpArrayInt16) :
    (a.size ≠ v.hop_size →
      (v.process a).1 = .error (.frameSize (frameSizeMsg a.size v.hop_size)))
    ∧ (a.size = v.hop_size →
      ∀ msg, (v.process a).1 ≠ .error (.frameSize msg)) := by
  constructor
  · intro h
    rw [process_mismatch v a h]
  · intro h msg
    rw [process_match v a h]
    simp

/-- Witness for C1: a 3-element frame against `hop_size = 4` raises the
frame-size error; a 1-element frame against `hop_size = 1` does not. -/
theorem process_frame_size_check_witness :
    ((VAD.process ⟨0, 4, 1/2, initState⟩ (zeroFrameArr 3)).1
      = .error (.frameSize (frameSizeMsg (zeroFrameArr 3).size 4)))
    ∧ (VAD.process ⟨0, 1, 1/2, initState⟩ (zeroFrameArr 1)).1
      ≠ .error (.frameSize "boom") :=
  ⟨(process_frame_size_check ⟨0, 4, 1/2, initState⟩ (zeroFrameArr 3)).1
      (by simp [zeroFrameArr_size]),
   (process_frame_size_check ⟨0, 1, 1/2, initState⟩ (zeroFrameArr 1)).2
      (by simp [zeroFrameArr_size]) "boom"⟩

/-- C2: creation succeeds exactly for `hop_size > 0` and `threshold` in
[0,1], and fails with the creation error for `hop_size = 0` or `threshold`
outside [0,1]. -/
theorem create_config_validation (addr hop_size : ℕ) (t : ℚ) :
    ((VAD.create addr hop_size t).isOk = true ↔
      0 < hop_size ∧ 0 ≤ t ∧ t ≤ 1)
    ∧ ((hop_size = 0 ∨ t < 0 ∨ 1 < t) →
      VAD.create addr hop_size t = .error .createFailed) := by
  by_cases h : hop_size = 0 ∨ t < 0 ∨ 1 < t
  · have hbad : ¬(0 < hop_size ∧ 0 ≤ t ∧ t ≤ 1) := by
      rintro ⟨h1, h2, h3⟩
      rcases h with h | h | h
      · omega
      · exact absurd h2 (not_le.mpr h)
      · exact absurd h3 (not_le.mpr h)
    constructor
    · simp [VAD.create, ten_vad_create, h, Except.isOk, Except.toBool, hbad]
    · intro _
      simp [VAD.create, ten_vad_create, h]
  · have hgood : 0 < hop_size ∧ 0 ≤ t ∧ t ≤ 1 := by
      push_neg at h
      exact ⟨Nat.pos_of_ne_zero h.1, h.2.1, h.2.2⟩
    constructor
    · simp [VAD.create, ten_vad_create, h, Except.isOk, Except.toBool, hgood]
    · intro hcon
      exact absurd hcon h

/-- Witness for C2: creation with `hop_size = 0` fails with the creation
error. -/
theorem create_config_validation_witness :
    VAD.create 0 0 (1/2) = .error .createFailed :=
  (create_config_validation 0 0 (1/2)).2 (Or.inl rfl)

/-- C3: every successful `process` call returns a probability clamped into
[0,1] (in the exact rational model no NaN or infinity exists; the explicit
clamp at the component boundary yields the bound). -/
theorem process_probability_clamped (v : VAD) (a : NpArrayInt16) (p : ℚ)
    (fl : Bool) (h : (v.process a).1 = .ok (p, fl)) : 0 ≤ p ∧ p ≤ 1 := by
  by_cases hs : a.size = v.hop_size
  · rw [process_match v a hs] at h
    have hp : p = clamp01 (smoothedScore v.st.smooth (rawScore a.data)) := by
      simp [engineStep] at h
      exact h.1.symm
    rw [hp]
    exact ⟨clamp01_nonneg _, clamp01_le_one _⟩
  · rw [process_mismatch v a hs] at h
    cases h

/-- Witness for C3: a concrete successful call returns probability 0, which
lies in [0,1]. -/
theorem process_probability_clamped_witness :
    ((VAD.process ⟨0, 1, 1/2, initState⟩ (zeroFrameArr 1)).1 = .ok (0, false))
    ∧ (0 ≤ (0 : ℚ) ∧ (0 : ℚ) ≤ 1) :=
  ⟨by norm_num [VAD.process, ten_vad_process, engineStep, rawScore,
      smoothedScore, smoothingCoeff, decisionStep, clamp01, zeroFrameArr,
      NpArrayInt16.size, initState, Mode.isSpeech],
   process_probability_clamped ⟨0, 1, 1/2, initState⟩ (zeroFrameArr 1) 0 false
    (by norm_num [VAD.process, ten_vad_process, engineStep, rawScore,
      smoothedScore, smoothingCoeff, decisionStep, clamp01, zeroFrameArr,
      NpArrayInt16.size, initState, Mode.isSpeech])⟩

/-- C4: a failed `process` call (thrown exception) leaves the object, and in
particular the engine state, exactly as it was. -/
theorem failed_process_preserves_state (v : VAD) (a : NpArrayInt16)
    (e : VadError) (h : (v.process a).1 = .error e) : (v.process a).2 = v := by
  by_cases hs : a.size = v.hop_size
  · rw [process_match v a hs] at h
    cases h
  · rw [process_mismatch v a hs]

/-- Witness for C4: a concrete failing call (size 3 against `hop_size` 4)
returns the object unchanged. -/
theorem failed_process_preserves_state_witness :
    ((VAD.process ⟨0, 4, 1/2, initState⟩ (zeroFrameArr 3)).1
      = .error (.frameSize (frameSizeMsg (zeroFrameArr 3).size 4)))
    ∧ (VAD.process ⟨0, 4, 1/2, initState⟩ (zeroFrameArr 3)).2
      = ⟨0, 4, 1/2, initState⟩ :=
  ⟨by rw [process_mismatch ⟨0, 4, 1/2, initState⟩ (zeroFrameArr 3)
      (by simp [zeroFrameArr_size])],
   failed_process_preserves_state ⟨0, 4, 1/2, initState⟩ (zeroFrameArr 3)
      (.frameSize (frameSizeMsg (zeroFrameArr 3).size 4))
      (by rw [process_mismatch ⟨0, 4, 1/2, initState⟩ (zeroFrameArr 3)
        (by simp [zeroFrameArr_size])])⟩

lemma decisionStep_silence_high {t s : ℚ} (h : t ≤ s) (c : ℕ) :
    decisionStep t s .SILENCE c = (.SPEECH, 0) := by
  simp [decisionStep, h]

lemma decisionStep_silence_low {t s : ℚ} (h : ¬t ≤ s) (c : ℕ) :
    decisionStep t s .SILENCE c = (.SILENCE, 0) := by
  simp [decisionStep, h]

lemma decisionStep_speech_high {t s : ℚ} (h : t ≤ s) (c : ℕ) :
    decisionStep t s .SPEECH c = (.SPEECH, 0) := by
  simp [decisionStep, h]

lemma decisionStep_speech_low_cont {t s : ℚ} (h : ¬t ≤ s) {c : ℕ}
    (hc : ¬hangover < c + 1) : decisionStep t s .SPEECH c = (.SPEECH, c + 1) := by
  simp [decisionStep, h, hc]

lemma decisionStep_speech_low_flip {t s : ℚ} (h : ¬t ≤ s) {c : ℕ}
    (hc : hangover < c + 1) : decisionStep t s .SPEECH c = (.SILENCE, 0) := by
  simp [decisionStep, h, hc]

lemma engineStates_smooth_succ (t : ℚ) (st : EngineState) (f : ℕ → List ℤ)
    (n : ℕ) : (engineStates t st f (n + 1)).smooth
      = smoothedScore (engineStates t st f n).smooth (rawScore (f n)) := rfl

lemma engineStates_mode_succ (t : ℚ) (st : EngineState) (f : ℕ → List ℤ)
    (n : ℕ) : (engineStates t st f (n + 1)).mode
      = (decisionStep t
          (smoothedScore (engineStates t st f n).smooth (rawScore (f n)))
          (engineStates t st f n).mode (engineStates t st f n).hangCount).1 :=
  rfl

lemma engineStates_hang_succ (t : ℚ) (st : EngineState) (f : ℕ → List ℤ)
    (n : ℕ) : (engineStates t st f (n + 1)).hangCount
      = (decisionStep t
          (smoothedScore (engineStates t st f n).smooth (rawScore (f n)))
          (engineStates t st f n).mode (engineStates t st f n).hangCount).2 :=
  rfl

lemma scoreAt_eq (t : ℚ) (st : EngineState) (f : ℕ → List ℤ) (n : ℕ) :
    scoreAt t st f n
      = smoothedScore (engineStates t st f n).smooth (rawScore (f n)) := rfl

lemma flagAt_eq_mode (t : ℚ) (st : EngineState) (f : ℕ → List ℤ) (n : ℕ) :
    flagAt t st f n = (engineStates t st f (n + 1)).mode.isSpeech := rfl

lemma isSpeech_eq_false {m : Mode} (h : m.isSpeech = false) : m = .SILENCE := by
  cases m
  · rfl
  · cases h

/-- Reachability invariant for the DecisionPolicy run started just after the
flag has turned true (state SPEECH, hangover counter 0): while in SPEECH, the
hangover counter never exceeds `hangover` or the number of elapsed frames,
and counts exactly the latest consecutive frames whose smoothed score was
strictly below `threshold`; SILENCE is reachable only after more than
`hangover` frames, the last `hangover + 1` of them all strictly below
`threshold`. -/
lemma hysteresis_invariant (t : ℚ) (st : EngineState) (f : ℕ → List ℤ)
    (hm : st.mode = .SPEECH) (hc : st.hangCount = 0) : ∀ n : ℕ,
    ((engineStates t st f n).mode = .SPEECH →
      (engineStates t st f n).hangCount ≤ hangover ∧
      (engineStates t st f n).hangCount ≤ n ∧
      (∀ j, j < (engineStates t st f n).hangCount →
        scoreAt t st f (n - 1 - j) < t))
    ∧ ((engineStates t st f n).mode = .SILENCE →
      hangover + 1 ≤ n ∧ ∀ j, j ≤ hangover → scoreAt t st f (n - 1 - j) < t) := by
  intro n
  induction n with
  | zero =>
    constructor
    · intro _
      refine ⟨?_, ?_, ?_⟩
      · show st.hangCount ≤ hangover
        omega
      · show st.hangCount ≤ 0
        omega
      · intro j hj
        rw [show (engineStates t st f 0).hangCount = st.hangCount from rfl,
          hc] at hj
        omega
    · intro hsil
      rw [show (engineStates t st f 0).mode = st.mode from rfl, hm] at hsil
      cases hsil
  | succ n ih =>
    by_cases hts : t ≤ smoothedScore (engineStates t st f n).smooth
        (rawScore (f n))
    · -- current smoothed score at or above threshold: new state is SPEECH
      -- with counter 0, whatever the previous mode was
      have hmode : (engineStates t st f (n + 1)).mode = .SPEECH := by
        rw [engineStates_mode_succ]
        cases hm2 : (engineStates t st f n).mode
        · rw [decisionStep_silence_high hts]
        · rw [decisionStep_speech_high hts]
      have hhang : (engineStates t st f (n + 1)).hangCount = 0 := by
        rw [engineStates_hang_succ]
        cases hm2 : (engineStates t st f n).mode
        · rw [decisionStep_silence_high hts]
        · rw [decisionStep_speech_high hts]
      constructor
      · intro _
        exact ⟨by omega, by omega, fun j hj => absurd hj (by omega)⟩
      · intro hcon
        rw [hmode] at hcon
        cases hcon
    · -- current smoothed score strictly below threshold
      have hscn : scoreAt t st f n < t := lt_of_not_le (by
        rw [scoreAt_eq]
        exact hts)
      cases hm2 : (engineStates t st f n).mode with
      | SPEECH =>
        obtain ⟨h1, h2, h3⟩ := ih.1 hm2
        by_cases hflip : hangover < (engineStates t st f n).hangCount + 1
        · -- the counter would pass `hangover`: transition to SILENCE
          have hcnt : (engineStates t st f n).hangCount = hangover := by
            omega
          have hmode : (engineStates t st f (n + 1)).mode = .SILENCE := by
            rw [engineStates_mode_succ, hm2, decisionStep_speech_low_flip hts hflip]
          constructor
          · intro hcon
            rw [hmode] at hcon
            cases hcon
          · intro _
            refine ⟨by omega, ?_⟩
            intro j hj
            rcases Nat.eq_zero_or_pos j with rfl | hjpos
            · rw [show n + 1 - 1 - 0 = n by omega]
              exact hscn
            · rw [show n + 1 - 1 - j = n - 1 - (j - 1) by omega]
              exact h3 (j - 1) (by omega)
        · -- below threshold but within the hangover window: the counter
          -- increments and the state stays SPEECH
          have hmode : (engineStates t st f (n + 1)).mode = .SPEECH := by
            rw [engineStates_mode_succ, hm2,
              decisionStep_speech_low_cont hts hflip]
          have hhang : (engineStates t st f (n + 1)).hangCount
              = (engineStates t st f n).hangCount + 1 := by
            rw [engineStates_hang_succ, hm2,
              decisionStep_speech_low_cont hts hflip]
          constructor
          · intro _
            refine ⟨by omega, by omega, ?_⟩
            intro j hj
            rw [hhang] at hj
            rcases Nat.eq_zero_or_pos j with rfl | hjpos
            · rw [show n + 1 - 1 - 0 = n by omega]
              exact hscn
            · rw [show n + 1 - 1 - j = n - 1 - (j - 1) by omega]
              exact h3 (j - 1) (by omega)
          · intro hcon
            rw [hmode] at hcon
            cases hcon
      | SILENCE =>
        obtain ⟨h1, h2⟩ := ih.2 hm2
        have hmode : (engineStates t st f (n + 1)).mode = .SILENCE := by
          rw [engineStates_mode_succ, hm2, decisionStep_silence_low hts]
        have hhang : (engineStates t st f (n + 1)).hangCount = 0 := by
          rw [engineStates_hang_succ, hm2, decisionStep_silence_low hts]
        constructor
        · intro hcon
          rw [hmode] at hcon
          cases hcon
        · intro _
          refine ⟨by omega, ?_⟩
          intro j hj
          rcases Nat.eq_zero_or_pos j with rfl | hjpos
          · rw [show n + 1 - 1 - 0 = n by omega]
            exact hscn
          · rw [show n + 1 - 1 - j = n - 1 - (j - 1) by omega]
            exact h2 (j - 1) (by omega)

/-- C5: from any state just after the flag turned true (SPEECH, hangover
counter 0), the flag stays true for at least `hangover` further calls no
matter what the frames contain; and whenever a call returns flag = false,
at least `hangover` calls have gone by and the smoothed scores of the last
`hangover + 1` calls (the current one included) were all strictly below the
threshold — so the SPEECH to SILENCE transition happens only after
`hangover` consecutive below-threshold frames. -/
theorem decision_flag_hysteresis (t : ℚ) (st : EngineState) (f : ℕ → List ℤ)
    (hm : st.mode = .SPEECH) (hc : st.hangCount = 0) :
    (∀ n, n < hangover → flagAt t st f n = true)
    ∧ (∀ n, flagAt t st f n = false →
        hangover ≤ n ∧ ∀ j, j ≤ hangover → scoreAt t st f (n - j) < t) := by
  have hinv := hysteresis_invariant t st f hm hc
  have key : ∀ n, flagAt t st f n = false →
      hangover ≤ n ∧ ∀ j, j ≤ hangover → scoreAt t st f (n - j) < t := by
    intro n hfl
    have hsil : (engineStates t st f (n + 1)).mode = .SILENCE :=
      isSpeech_eq_false ((flagAt_eq_mode t st f n) ▸ hfl)
    obtain ⟨hge, hbel⟩ := (hinv (n + 1)).2 hsil
    refine ⟨by omega, ?_⟩
    intro j hj
    have := hbel j hj
    rwa [show n + 1 - 1 - j = n - j by omega] at this
  refine ⟨?_, key⟩
  intro n hn
  cases hb : flagAt t st f n with
  | true => rfl
  | false =>
    have := (key n hb).1
    omega

/-- Witness for C5: starting from the post-true state with threshold 1/2 and
an empty-frame stream, the very next call still reports speech. -/
theorem decision_flag_hysteresis_witness :
    flagAt (1/2) ⟨0, 0, .SPEECH⟩ (fun _ => []) 0 = true :=
  (decision_flag_hysteresis (1/2) ⟨0, 0, .SPEECH⟩ (fun _ => []) rfl rfl).1 0
    (by norm_num [hangover])

/-- Two `VAD` objects that agree on everything except their identity produce
identical result sequences on every frame list. -/
lemma run_ignores_addr (v w : VAD) (h1 : v.hop_size = w.hop_size)
    (h2 : v.threshold = w.threshold) (h3 : v.st = w.st) :
    ∀ frames, v.run frames = w.run frames := by
  intro frames
  induction frames generalizing v w with
  | nil => rfl
  | cons a rest ih =>
    by_cases hsz : a.size = v.hop_size
    · have hszw : a.size = w.hop_size := h1 ▸ hsz
      rw [VAD.run, VAD.run, process_match v a hsz, process_match w a hszw,
        h2, h3]
      exact congrArg _ (ih _ _ h1 rfl rfl)
    · have hszw : ¬a.size = w.hop_size := h1 ▸ hsz
      rw [VAD.run, VAD.run, process_mismatch v a hsz,
        process_mismatch w a hszw, h1]
      exact congrArg _ (ih _ _ h1 h2 h3)

/-- C6: feeding the identical frame sequence through two independently
created handles (different identities) with identical configuration yields
identical result sequences at every step. -/
theorem identical_config_identical_outputs (addr1 addr2 hop_size : ℕ)
    (t : ℚ) (frames : List NpArrayInt16) :
    (VAD.create addr1 hop_size t).map (fun v => v.run frames)
      = (VAD.create addr2 hop_size t).map (fun v => v.run frames) := by
  unfold VAD.create
  cases h : ten_vad_create hop_size t with
  | none => rfl
  | some st =>
    simp only [Except.map]
    exact congrArg Except.ok
      (run_ignores_addr ⟨addr1, hop_size, t, st⟩ ⟨addr2, hop_size, t, st⟩
        rfl rfl rfl frames)

/-- Witness for C6: two handles with identities 0 and 1 and identical
configuration agree on a concrete frame list. -/
theorem identical_config_identical_outputs_witness :
    (VAD.create 0 4 (1/2)).map (fun v => v.run [arr2x2])
      = (VAD.create 1 4 (1/2)).map (fun v => v.run [arr2x2]) :=
  identical_config_identical_outputs 0 1 4 (1/2) [arr2x2]

/-- Counterexample to C7 as stated: threshold 0 is a valid configuration
(the spec admits every threshold in [0,1]), yet on the very first all-zero
frame the smoothed score 0 already reaches the threshold, so the SILENCE to
SPEECH transition fires and the flag is true, not false. -/
theorem zero_threshold_silent_frame_flags_speech :
    VAD.create 0 1 0 = .ok ⟨0, 1, 0, initState⟩
    ∧ (VAD.process ⟨0, 1, 0, initState⟩ (zeroFrameArr 1)).1 = .ok (0, true) := by
  constructor
  · norm_num [VAD.create, ten_vad_create]
  · norm_num [VAD.process, ten_vad_process, engineStep, rawScore,
      smoothedScore, smoothingCoeff, decisionStep, clamp01, zeroFrameArr,
      NpArrayInt16.size, initState, Mode.isSpeech]

lemma rawScore_zero_frame (k : ℕ) : rawScore (List.replicate k 0) = 0 := by
  simp [rawScore, clamp01]

lemma engineStep_zero_frame (t : ℚ) (ht : 0 < t) (k : ℕ) :
    engineStep t initState (List.replicate k 0) = ((0, false), initState) := by
  have hsm : smoothedScore initState.smooth (rawScore (List.replicate k 0))
      = 0 := by
    rw [rawScore_zero_frame]
    simp [smoothedScore, initState]
  have hts : ¬t ≤ (0 : ℚ) := not_le.mpr ht
  simp only [engineStep, hsm]
  rw [show initState.mode = Mode.SILENCE from rfl,
    decisionStep_silence_low hts]
  simp [clamp01, Mode.isSpeech, initState]

lemma runStream_zero_frames (addr hop_size : ℕ) (t : ℚ) (ht : 0 < t) :
    ∀ n, VAD.runStream ⟨addr, hop_size, t, initState⟩
      (fun _ => zeroFrameArr hop_size) n = ⟨addr, hop_size, t, initState⟩ := by
  intro n
  induction n with
  | zero => rfl
  | succ n ih =>
    rw [VAD.runStream, ih,
      process_match _ _ (zeroFrameArr_size hop_size)]
    rw [show (zeroFrameArr hop_size).data = List.replicate hop_size 0
      from rfl]
    rw [show (⟨addr, hop_size, t, initState⟩ : VAD).st = initState from rfl,
      show (⟨addr, hop_size, t, initState⟩ : VAD).threshold = t from rfl,
      engineStep_zero_frame t ht]

/-- C7 amended: from a freshly created handle whose threshold is strictly
positive, every process call on an all-zero frame, repeated any number of
times, returns probability 0 (the minimum of the range) and flag = false. -/
theorem silence_stays_silent (addr hop_size : ℕ) (t : ℚ) (v : VAD)
    (ht : 0 < t) (hcr : VAD.create addr hop_size t = .ok v) (n : ℕ) :
    v.outAt (fun _ => zeroFrameArr hop_size) n = .ok (0, false) := by
  have hv : v = ⟨addr, hop_size, t, initState⟩ := by
    unfold VAD.create at hcr
    cases h : ten_vad_create hop_size t with
    | none => rw [h] at hcr; cases hcr
    | some st =>
      rw [h] at hcr
      have hst : st = initState := by
        unfold ten_vad_create at h
        by_cases hc : hop_size = 0 ∨ t < 0 ∨ 1 < t
        · rw [if_pos hc] at h; cases h
        · rw [if_neg hc] at h
          exact (Option.some.injEq _ _ ▸ h).symm
      cases hcr
      rw [hst]
  rw [hv, VAD.outAt, runStream_zero_frames addr hop_size t ht n,
    process_match _ _ (zeroFrameArr_size hop_size)]
  rw [show (zeroFrameArr hop_size).data = List.replicate hop_size 0 from rfl]
  rw [show (⟨addr, hop_size, t, initState⟩ : VAD).st = initState from rfl,
    show (⟨addr, hop_size, t, initState⟩ : VAD).threshold = t from rfl,
    engineStep_zero_frame t ht]

/-- Witness for C7 amended: with hop 1 and threshold 1/2, the third repeated
all-zero frame still yields probability 0 and flag false. -/
theorem silence_stays_silent_witness :
    VAD.outAt ⟨0, 1, 1/2, initState⟩ (fun _ => zeroFrameArr 1) 2
      = .ok (0, false) :=
  silence_stays_silent 0 1 (1/2) ⟨0, 1, 1/2, initState⟩ (by norm_num)
    (by norm_num [VAD.create, ten_vad_create]) 2

/-- C8: `version()` returns the same string on every call, on every handle,
and that string is non-empty; the model function reads nothing from the
handle and has no effect on it. -/
theorem version_nonempty_constant (v w : VAD) :
    v.version = w.version ∧ v.version ≠ "" := by
  refine ⟨rfl, ?_⟩
  rw [show v.version = "ten-vad" from rfl]
  simp

/-- Witness for C8: two concrete handles in different states report the same
non-empty version string. -/
theorem version_nonempty_constant_witness :
    VAD.version ⟨0, 1, 1/2, initState⟩ = VAD.version ⟨1, 2, 1, ⟨1, 3, .SPEECH⟩⟩
    ∧ VAD.version ⟨0, 1, 1/2, initState⟩ ≠ "" :=
  version_nonempty_constant ⟨0, 1, 1/2, initState⟩ ⟨1, 2, 1, ⟨1, 3, .SPEECH⟩⟩

/-- C9: the frame-size validation compares only the total element count
(the product of the shape) with `hop_size`: any array whose total count
matches — multi-dimensional included — is processed as a flat buffer, and on
a mismatch the thrown message reports both the submitted size and the
configured `hop_size`. -/
theorem size_check_counts_total_elements (v : VAD) (a : NpArrayInt16) :
    (a.shape.prod = v.hop_size →
      v.process a = (.ok (engineStep v.threshold v.st a.data).1,
        { v with st := (engineStep v.threshold v.st a.data).2 }))
    ∧ (a.shape.prod ≠ v.hop_size →
      (v.process a).1 = .error (.frameSize
        ("Audio data size (" ++ toString a.shape.prod ++
          ") must match hop_size (" ++ toString v.hop_size ++ ")"))) := by
  constructor
  · intro h
    exact process_match v a h
  · intro h
    rw [(process_mismatch v a h : _)]
    rfl

/-- Witness for C9: a 2 x 2 array (4 total elements) passes the hop 4 check
and is processed flat; a 2 x 3 array (6 total elements) fails it with a
message naming 6 and 4. -/
theorem size_check_counts_total_elements_witness :
    (VAD.process ⟨0, 4, 1/2, initState⟩ arr2x2
      = (.ok (engineStep (1/2) initState arr2x2.data).1,
        ⟨0, 4, 1/2, (engineStep (1/2) initState arr2x2.data).2⟩))
    ∧ ((VAD.process ⟨0, 4, 1/2, initState⟩ arr2x3).1
      = .error (.frameSize ("Audio data size (" ++ toString (6 : ℕ) ++
          ") must match hop_size (" ++ toString (4 : ℕ) ++ ")"))) :=
  ⟨(size_check_counts_total_elements ⟨0, 4, 1/2, initState⟩ arr2x2).1 rfl,
   (size_check_counts_total_elements ⟨0, 4, 1/2, initState⟩ arr2x3).2
    (by norm_num [arr2x3])⟩

/-- C10: over one complete C++ lifetime of a `VAD` object, `ten_vad_destroy`
is never invoked when `ten_vad_create` failed (the constructor throws, so no
object exists and the destructor never runs), and is invoked exactly once —
at destruction — when creation succeeded. -/
theorem destroy_called_iff_constructed (hop_size : ℕ) (t : ℚ) :
    (ten_vad_create hop_size t = none →
      vadLifetimeTrace hop_size t = [.create])
    ∧ (∀ st, ten_vad_create hop_size t = some st →
      vadLifetimeTrace hop_size t = [.create, .destroy])
    ∧ (vadLifetimeTrace hop_size t).count .destroy
      = if (ten_vad_create hop_size t).isSome then 1 else 0 := by
  refine ⟨?_, ?_, ?_⟩
  · intro h
    unfold vadLifetimeTrace
    rw [h]
  · intro st h
    unfold vadLifetimeTrace
    rw [h]
  · unfold vadLifetimeTrace
    cases h : ten_vad_create hop_size t with
    | none => simp [List.count_cons]
    | some st => simp [List.count_cons]

/-- Witness for C10: with hop 0 creation fails and the trace holds no
destroy call; with hop 1 and threshold 1/2 creation succeeds and the trace
ends with the single destroy call. -/
theorem destroy_called_iff_constructed_witness :
    vadLifetimeTrace 0 (1/2) = [.create]
    ∧ vadLifetimeTrace 1 (1/2) = [.create, .destroy] :=
  ⟨(destroy_called_iff_constructed 0 (1/2)).1
      (by norm_num [ten_vad_create]),
   (destroy_called_iff_constructed 1 (1/2)).2.1 initState
      (by norm_num [ten_vad_create])⟩

end TenVad
